import Mathlib

/-!
Verification of the swap-in functions of the storage layer
(`store_swapin.cc`): `storeSwapInStart`, `storeSwapInFileClosed`,
`storeSwapInFileNotify`.

The embedding is shallow: the three C functions become Lean functions on an
explicit state.  A failed `assert(...)` is modelled as `Except.error`
(execution stops, no further effect happens); a normal return is
`Except.ok` carrying the resulting state.  External side effects that the
functions perform — the `storeOpen` call, `cbdataLock`/`cbdataUnlock`, and
the invocation of the client callback — are recorded as events appended to
an event log, so theorems can speak about what was delivered and how often.
The handle that the external `storeOpen` returns is passed in as a
parameter, since `storeOpen` itself is outside this translation unit.
-/

namespace Squid.SwapIn

/-- `mem_status_t`: whether the entry's object is resident in memory. -/
inductive MemStatus
  | NOT_IN_MEMORY
  | IN_MEMORY
deriving DecidableEq, Repr

/-- `swap_status_t`: state of the entry's durable (on-disk) copy. -/
inductive SwapStatus
  | SWAPOUT_NONE
  | SWAPOUT_WRITING
  | SWAPOUT_DONE
deriving DecidableEq, Repr

/-- Bit index of `ENTRY_VALIDATED` in the entry flag word. -/
def ENTRY_VALIDATED : Nat := 10

/-- `EBIT_TEST(flags, bit)`: test one bit of a flag word. -/
def EBIT_TEST (flags : Nat) (bit : Nat) : Bool := Nat.testBit flags bit

/-- The fields of `StoreEntry` read or written by the swap-in code:
swap state, memory state, flag word, the swap locator
`(swap_dirn, swap_filen)`, and whether `mem_obj` is non-NULL. -/
structure StoreEntry where
  mem_status : MemStatus
  swap_status : SwapStatus
  flags : Nat
  swap_dirn : Int
  swap_filen : Int
  mem_obj : Bool
deriving DecidableEq, Repr

/-- The fields of `storeIOState` (the swap I/O handle) that the swap-in
code reads: the locator the handle actually resolved to. -/
structure storeIOState where
  swap_dirn : Int
  swap_filen : Int
deriving DecidableEq, Repr

/-- The fields of `store_client` used by the swap-in code.  `callback` is
the pending `STCB *` pointer, `none` standing for NULL; a `Nat` stands for
the identity of the callback function.  `callback_data` and `copy_buf`
are the opaque pointer and buffer passed to the callback. -/
structure store_client where
  entry : StoreEntry
  callback : Option Nat
  callback_data : Nat
  copy_buf : Nat
  swapin_sio : Option storeIOState
deriving DecidableEq, Repr

/-- Externally visible effects of the swap-in functions, recorded in
order of occurrence.  `callbackInvoked` records the callback pointer, the
two data arguments and the error flag passed, together with a snapshot of
the `store_client` as the callback observes it at the moment of the call. -/
inductive Event
  | opened (e : StoreEntry)
  | cbdataLock (sio : Option storeIOState)
  | cbdataUnlock (sio : storeIOState)
  | callbackInvoked (cb : Nat) (callback_data : Nat) (copy_buf : Nat)
      (errflag : Int) (scAtCall : store_client)
deriving DecidableEq, Repr

/-- The state the swap-in functions act on: the client (with its entry),
the global `statCounter.swap.ins` counter, and the event log. -/
structure SwapInState where
  sc : store_client
  swap_ins : Nat
  events : List Event
deriving DecidableEq, Repr

/-- Outcome of a failed `assert`. -/
inductive AssertFail
  | assertFailed
deriving DecidableEq, Repr

/--
`storeSwapInStart(store_client *sc)`.

Direct translation: `assert(e->mem_status == NOT_IN_MEMORY)`; early return
when `ENTRY_VALIDATED` is not set; early return when `swap_status` is
neither `SWAPOUT_WRITING` nor `SWAPOUT_DONE`; early return when
`swap_filen < 0`; `assert(e->mem_obj != NULL)`; otherwise
`sc->swapin_sio = storeOpen(e, notify, closed, sc)` followed by
`cbdataLock(sc->swapin_sio)`.  The value returned by the external
`storeOpen` is the parameter `sioRet` (possibly NULL). -/
def storeSwapInStart (st : SwapInState) (sioRet : Option storeIOState) :
    Except AssertFail SwapInState :=
  let e := st.sc.entry
  if e.mem_status ≠ MemStatus.NOT_IN_MEMORY then
    Except.error AssertFail.assertFailed
  else if ¬ EBIT_TEST e.flags ENTRY_VALIDATED then
    Except.ok st
  else if e.swap_status ≠ SwapStatus.SWAPOUT_WRITING ∧
          e.swap_status ≠ SwapStatus.SWAPOUT_DONE then
    Except.ok st
  else if e.swap_filen < 0 then
    Except.ok st
  else if ¬ e.mem_obj then
    Except.error AssertFail.assertFailed
  else
    Except.ok { st with
      sc := { st.sc with swapin_sio := sioRet },
      events := st.events ++ [Event.opened e, Event.cbdataLock sioRet] }

/--
`storeSwapInFileClosed(void *data, int errflag, storeIOState *sio)`.

Direct translation: `cbdataUnlock(sio)`; `sc->swapin_sio = NULL`; if
`sc->callback` is non-NULL then `assert(errflag <= 0)`,
`sc->callback = NULL`, and the saved callback is invoked with
`(sc->callback_data, sc->copy_buf, errflag)`; finally
`statCounter.swap.ins++`. -/
def storeSwapInFileClosed (st : SwapInState) (errflag : Int)
    (sio : storeIOState) : Except AssertFail SwapInState :=
  let st1 := { st with events := st.events ++ [Event.cbdataUnlock sio] }
  let st2 := { st1 with sc := { st1.sc with swapin_sio := none } }
  match st2.sc.callback with
  | some callback =>
      if errflag ≤ 0 then
        let sc1 := { st2.sc with callback := none }
        let st3 := { st2 with
          sc := sc1,
          events := st2.events ++
            [Event.callbackInvoked callback sc1.callback_data sc1.copy_buf
              errflag sc1] }
        Except.ok { st3 with swap_ins := st3.swap_ins + 1 }
      else
        Except.error AssertFail.assertFailed
  | none =>
      Except.ok { st2 with swap_ins := st2.swap_ins + 1 }

/--
`storeSwapInFileNotify(void *data, int errflag, storeIOState *sio)`.

Direct translation: `e->swap_filen = sio->swap_filen;
e->swap_dirn = sio->swap_dirn`.  The `errflag` argument is unused by the
source, as here. -/
def storeSwapInFileNotify (st : SwapInState) (_errflag : Int)
    (sio : storeIOState) : SwapInState :=
  let e := st.sc.entry
  { st with sc := { st.sc with entry :=
      { e with swap_filen := sio.swap_filen, swap_dirn := sio.swap_dirn } } }

/-! ## Claim C1 -/

/-- A state whose entry already carries an assigned locator
`(dirn 1, filen 2)`. -/
def stC1 : SwapInState :=
  { sc := { entry := { mem_status := MemStatus.NOT_IN_MEMORY,
                       swap_status := SwapStatus.SWAPOUT_DONE,
                       flags := 1024, swap_dirn := 1, swap_filen := 2,
                       mem_obj := true },
            callback := none, callback_data := 0, copy_buf := 0,
            swapin_sio := none },
    swap_ins := 0, events := [] }

/-- A handle whose locator `(dirn 3, filen 5)` differs from the entry's. -/
def sioC1 : storeIOState := { swap_dirn := 3, swap_filen := 5 }

/-- Claim C1 (counterexample): an entry with an already-assigned locator
`(1, 2)` has that locator overwritten with the different value `(3, 5)` by
`storeSwapInFileNotify`, so the locator is not immutable once assigned. -/
theorem C1_counterexample :
    0 ≤ stC1.sc.entry.swap_filen ∧
    (storeSwapInFileNotify stC1 0 sioC1).sc.entry.swap_filen ≠
      stC1.sc.entry.swap_filen ∧
    (storeSwapInFileNotify stC1 0 sioC1).sc.entry.swap_dirn ≠
      stC1.sc.entry.swap_dirn := by
  decide

/-- Claim C1 (amended): `storeSwapInFileNotify` always sets the entry's
locator to the locator of the handle, overwriting any previously assigned
value (which may differ, when the handle resolved to remapped storage);
the entry's locator is therefore not immutable across the notifier. -/
theorem C1_notify_overwrites_locator (st : SwapInState) (errflag : Int)
    (sio : storeIOState) :
    (storeSwapInFileNotify st errflag sio).sc.entry.swap_filen =
      sio.swap_filen ∧
    (storeSwapInFileNotify st errflag sio).sc.entry.swap_dirn =
      sio.swap_dirn :=
  ⟨rfl, rfl⟩

/-! ## Claim C9 -/

/-- Claim C9: `storeSwapInFileNotify` modifies only the entry's locator
bookkeeping (`swap_filen`, `swap_dirn`, copied from the handle); it
delivers no bytes to any client (the event log is unchanged, so no
callback is invoked) and leaves `swap_status`, `mem_status`, `flags`,
`mem_obj`, the client's `callback`, `callback_data`, `copy_buf`,
`swapin_sio`, and the swap-in counter unchanged. -/
theorem C9_notify_frame (st : SwapInState) (errflag : Int)
    (sio : storeIOState) :
    (storeSwapInFileNotify st errflag sio).sc.entry.swap_filen =
        sio.swap_filen ∧
    (storeSwapInFileNotify st errflag sio).sc.entry.swap_dirn =
        sio.swap_dirn ∧
    (storeSwapInFileNotify st errflag sio).sc.entry.swap_status =
        st.sc.entry.swap_status ∧
    (storeSwapInFileNotify st errflag sio).sc.entry.mem_status =
        st.sc.entry.mem_status ∧
    (storeSwapInFileNotify st errflag sio).sc.entry.flags =
        st.sc.entry.flags ∧
    (storeSwapInFileNotify st errflag sio).sc.entry.mem_obj =
        st.sc.entry.mem_obj ∧
    (storeSwapInFileNotify st errflag sio).sc.callback = st.sc.callback ∧
    (storeSwapInFileNotify st errflag sio).sc.callback_data =
        st.sc.callback_data ∧
    (storeSwapInFileNotify st errflag sio).sc.copy_buf = st.sc.copy_buf ∧
    (storeSwapInFileNotify st errflag sio).sc.swapin_sio =
        st.sc.swapin_sio ∧
    (storeSwapInFileNotify st errflag sio).swap_ins = st.swap_ins ∧
    (storeSwapInFileNotify st errflag sio).events = st.events :=
  ⟨rfl, rfl, rfl, rfl, rfl, rfl, rfl, rfl, rfl, rfl, rfl, rfl⟩

/-! ## Claim C2 -/

/-- A state violating the validated precondition only: not in memory,
`flags = 0` (so `ENTRY_VALIDATED` is clear), otherwise swap-in eligible. -/
def stC2 : SwapInState :=
  { sc := { entry := { mem_status := MemStatus.NOT_IN_MEMORY,
                       swap_status := SwapStatus.SWAPOUT_DONE,
                       flags := 0, swap_dirn := 1, swap_filen := 2,
                       mem_obj := true },
            callback := none, callback_data := 0, copy_buf := 0,
            swapin_sio := none },
    swap_ins := 0, events := [] }

/-- Claim C2 (counterexample): calling `storeSwapInStart` on an entry that
violates the validated precondition does not fail an assertion — it
returns normally with the state unchanged, so not every one of the four
precondition checks is assertion-style fatal. -/
theorem C2_counterexample :
    EBIT_TEST stC2.sc.entry.flags ENTRY_VALIDATED = false ∧
    storeSwapInStart stC2 none = Except.ok stC2 :=
  ⟨rfl, rfl⟩

/-- Claim C2 (amended): of `storeSwapInStart`'s precondition checks, only
the entry-in-memory check (`mem_status ≠ NOT_IN_MEMORY`) is fatal
assertion-style; violating the validated check, the swap-status check, or
the locator check instead causes a recoverable early return that leaves
the state unchanged. -/
theorem C2_only_mem_status_is_fatal (st : SwapInState)
    (sioRet : Option storeIOState) :
    (st.sc.entry.mem_status ≠ MemStatus.NOT_IN_MEMORY →
      storeSwapInStart st sioRet = Except.error AssertFail.assertFailed) ∧
    (st.sc.entry.mem_status = MemStatus.NOT_IN_MEMORY →
      ¬ EBIT_TEST st.sc.entry.flags ENTRY_VALIDATED →
      storeSwapInStart st sioRet = Except.ok st) ∧
    (st.sc.entry.mem_status = MemStatus.NOT_IN_MEMORY →
      st.sc.entry.swap_status ≠ SwapStatus.SWAPOUT_WRITING →
      st.sc.entry.swap_status ≠ SwapStatus.SWAPOUT_DONE →
      storeSwapInStart st sioRet = Except.ok st) ∧
    (st.sc.entry.mem_status = MemStatus.NOT_IN_MEMORY →
      st.sc.entry.swap_filen < 0 →
      storeSwapInStart st sioRet = Except.ok st) := by
  refine ⟨fun h1 => ?_, fun h1 h2 => ?_, fun h1 h2 h3 => ?_,
          fun h1 h2 => ?_⟩
  · simp [storeSwapInStart, h1]
  · simp [storeSwapInStart, h1, h2]
  · by_cases hv : EBIT_TEST st.sc.entry.flags ENTRY_VALIDATED
    · simp [storeSwapInStart, h1, hv, h2, h3]
    · simp [storeSwapInStart, h1, hv]
  · by_cases hv : EBIT_TEST st.sc.entry.flags ENTRY_VALIDATED
    · by_cases hs : st.sc.entry.swap_status ≠ SwapStatus.SWAPOUT_WRITING ∧
          st.sc.entry.swap_status ≠ SwapStatus.SWAPOUT_DONE
      · simp [storeSwapInStart, h1, hv, hs.1, hs.2]
      · simp [storeSwapInStart, h1, hv, hs, h2]
    · simp [storeSwapInStart, h1, hv]

/-- A state violating only the entry-in-memory precondition. -/
def stC2w : SwapInState :=
  { stC2 with sc := { stC2.sc with entry :=
      { stC2.sc.entry with mem_status := MemStatus.IN_MEMORY,
                           flags := 1024 } } }

/-- A state violating only the swap-status precondition. -/
def stC2x : SwapInState :=
  { stC2 with sc := { stC2.sc with entry :=
      { stC2.sc.entry with swap_status := SwapStatus.SWAPOUT_NONE,
                           flags := 1024 } } }

/-- A state violating only the locator precondition. -/
def stC2y : SwapInState :=
  { stC2 with sc := { stC2.sc with entry :=
      { stC2.sc.entry with flags := 1024, swap_filen := -1 } } }

/-- Witness for the amended claim C2 at concrete states: an in-memory
entry fails the assertion; a not-validated entry, a `SWAPOUT_NONE` entry,
and an entry with `swap_filen = -1` each return normally and unchanged. -/
theorem C2_only_mem_status_is_fatal_witness :
    storeSwapInStart stC2w none = Except.error AssertFail.assertFailed ∧
    storeSwapInStart stC2 none = Except.ok stC2 ∧
    storeSwapInStart stC2x none = Except.ok stC2x ∧
    storeSwapInStart stC2y none = Except.ok stC2y :=
  ⟨(C2_only_mem_status_is_fatal stC2w none).1 (by decide),
   (C2_only_mem_status_is_fatal stC2 none).2.1 (by decide) (by decide),
   (C2_only_mem_status_is_fatal stC2x none).2.2.1 (by decide) (by decide)
     (by decide),
   (C2_only_mem_status_is_fatal stC2y none).2.2.2 (by decide) (by decide)⟩

/-! ## Claim C3 -/

/-- Claim C3: when the entry does not have `ENTRY_VALIDATED` set,
`storeSwapInStart` never swaps in: every normal return leaves the state
exactly as it was — in particular `sc.swapin_sio` is not assigned and no
`storeOpen`/`cbdataLock` event is recorded. -/
theorem C3_not_validated_never_swapped_in (st : SwapInState)
    (sioRet : Option storeIOState)
    (h : ¬ EBIT_TEST st.sc.entry.flags ENTRY_VALIDATED)
    (st' : SwapInState)
    (hok : storeSwapInStart st sioRet = Except.ok st') :
    st' = st ∧ st'.sc.swapin_sio = st.sc.swapin_sio ∧
      st'.events = st.events := by
  by_cases h1 : st.sc.entry.mem_status = MemStatus.NOT_IN_MEMORY
  · simp [storeSwapInStart, h1, h] at hok
    exact ⟨hok.symm, by rw [hok], by rw [hok]⟩
  · simp [storeSwapInStart, h1] at hok

/-- A not-validated state on which `storeSwapInStart` is callable. -/
def stC3 : SwapInState :=
  { sc := { entry := { mem_status := MemStatus.NOT_IN_MEMORY,
                       swap_status := SwapStatus.SWAPOUT_WRITING,
                       flags := 0, swap_dirn := 0, swap_filen := 7,
                       mem_obj := true },
            callback := some 5, callback_data := 1, copy_buf := 2,
            swapin_sio := none },
    swap_ins := 3, events := [] }

/-- Witness for claim C3 at a concrete not-validated state. -/
theorem C3_not_validated_never_swapped_in_witness :
    stC3 = stC3 ∧ stC3.sc.swapin_sio = stC3.sc.swapin_sio ∧
      stC3.events = stC3.events :=
  C3_not_validated_never_swapped_in stC3 none (by decide) stC3 rfl

/-! ## Claim C4 -/

/-- Claim C4: `storeSwapInStart` opens a handle (calls `storeOpen`,
stores the result in `sc.swapin_sio` and locks it) only when the entry's
`swap_status` is `SWAPOUT_WRITING` or `SWAPOUT_DONE` and its `swap_filen`
is non-negative; whenever that condition fails — in particular for
`swap_status = SWAPOUT_NONE` — the call either fails an unrelated
assertion or returns with the state unchanged, never opening. -/
theorem C4_open_only_when_swapped (st : SwapInState)
    (sioRet : Option storeIOState) :
    (∀ st', storeSwapInStart st sioRet = Except.ok st' → st' ≠ st →
      ((st.sc.entry.swap_status = SwapStatus.SWAPOUT_WRITING ∨
        st.sc.entry.swap_status = SwapStatus.SWAPOUT_DONE) ∧
       0 ≤ st.sc.entry.swap_filen ∧
       st'.sc.swapin_sio = sioRet ∧
       st'.events = st.events ++
         [Event.opened st.sc.entry, Event.cbdataLock sioRet])) ∧
    (¬ ((st.sc.entry.swap_status = SwapStatus.SWAPOUT_WRITING ∨
         st.sc.entry.swap_status = SwapStatus.SWAPOUT_DONE) ∧
        0 ≤ st.sc.entry.swap_filen) →
      storeSwapInStart st sioRet = Except.error AssertFail.assertFailed ∨
      storeSwapInStart st sioRet = Except.ok st) := by
  constructor
  · intro st' hok hne
    by_cases h1 : st.sc.entry.mem_status = MemStatus.NOT_IN_MEMORY
    · by_cases hv : EBIT_TEST st.sc.entry.flags ENTRY_VALIDATED
      · by_cases hf : st.sc.entry.swap_filen < 0
        · cases hstat : st.sc.entry.swap_status
          · simp [storeSwapInStart, h1, hv, hstat] at hok
            exact absurd hok.symm hne
          · simp [storeSwapInStart, h1, hv, hstat, hf] at hok
            exact absurd hok.symm hne
          · simp [storeSwapInStart, h1, hv, hstat, hf] at hok
            exact absurd hok.symm hne
        · cases hstat : st.sc.entry.swap_status
          · simp [storeSwapInStart, h1, hv, hstat] at hok
            exact absurd hok.symm hne
          · by_cases hm : st.sc.entry.mem_obj
            · simp [storeSwapInStart, h1, hv, hstat, hf, hm] at hok
              subst hok
              exact ⟨Or.inl rfl, not_lt.mp hf, rfl, rfl⟩
            · simp [storeSwapInStart, h1, hv, hstat, hf, hm] at hok
          · by_cases hm : st.sc.entry.mem_obj
            · simp [storeSwapInStart, h1, hv, hstat, hf, hm] at hok
              subst hok
              exact ⟨Or.inr rfl, not_lt.mp hf, rfl, rfl⟩
            · simp [storeSwapInStart, h1, hv, hstat, hf, hm] at hok
      · simp [storeSwapInStart, h1, hv] at hok
        exact absurd hok.symm hne
    · simp [storeSwapInStart, h1] at hok
  · intro hbad
    by_cases h1 : st.sc.entry.mem_status = MemStatus.NOT_IN_MEMORY
    · by_cases hv : EBIT_TEST st.sc.entry.flags ENTRY_VALIDATED
      · cases hstat : st.sc.entry.swap_status
        · exact Or.inr (by simp [storeSwapInStart, h1, hv, hstat])
        · have hf : st.sc.entry.swap_filen < 0 := by
            by_contra hf
            exact hbad ⟨Or.inl hstat, not_lt.mp hf⟩
          exact Or.inr (by simp [storeSwapInStart, h1, hv, hstat, hf])
        · have hf : st.sc.entry.swap_filen < 0 := by
            by_contra hf
            exact hbad ⟨Or.inr hstat, not_lt.mp hf⟩
          exact Or.inr (by simp [storeSwapInStart, h1, hv, hstat, hf])
      · exact Or.inr (by simp [storeSwapInStart, h1, hv])
    · exact Or.inl (by simp [storeSwapInStart, h1])

/-- A fully swap-in-eligible state: not in memory, validated,
`SWAPOUT_DONE`, locator `(1, 2)`, `mem_obj` present. -/
def stC4 : SwapInState :=
  { sc := { entry := { mem_status := MemStatus.NOT_IN_MEMORY,
                       swap_status := SwapStatus.SWAPOUT_DONE,
                       flags := 1024, swap_dirn := 1, swap_filen := 2,
                       mem_obj := true },
            callback := some 5, callback_data := 1, copy_buf := 2,
            swapin_sio := none },
    swap_ins := 0, events := [] }

/-- The handle returned by `storeOpen` in the C4 witness run. -/
def sioC4 : storeIOState := { swap_dirn := 1, swap_filen := 2 }

/-- The state `storeSwapInStart` produces from `stC4`. -/
def stC4r : SwapInState :=
  { stC4 with
    sc := { stC4.sc with swapin_sio := some sioC4 },
    events := [Event.opened stC4.sc.entry,
               Event.cbdataLock (some sioC4)] }

/-- A state whose `swap_status` is `SWAPOUT_NONE` but is otherwise
swap-in-eligible. -/
def stC4n : SwapInState :=
  { stC4 with sc := { stC4.sc with entry :=
      { stC4.sc.entry with swap_status := SwapStatus.SWAPOUT_NONE } } }

/-- Witness for claim C4: on a concrete eligible `SWAPOUT_DONE` state the
open really happens and records the handle; on a concrete `SWAPOUT_NONE`
state the call returns without opening. -/
theorem C4_open_only_when_swapped_witness :
    (((stC4.sc.entry.swap_status = SwapStatus.SWAPOUT_WRITING ∨
       stC4.sc.entry.swap_status = SwapStatus.SWAPOUT_DONE) ∧
      0 ≤ stC4.sc.entry.swap_filen ∧
      stC4r.sc.swapin_sio = some sioC4 ∧
      stC4r.events = stC4.events ++
        [Event.opened stC4.sc.entry, Event.cbdataLock (some sioC4)])) ∧
    (storeSwapInStart stC4n none = Except.error AssertFail.assertFailed ∨
     storeSwapInStart stC4n none = Except.ok stC4n) :=
  ⟨(C4_open_only_when_swapped stC4 (some sioC4)).1 stC4r rfl
     (by decide),
   (C4_open_only_when_swapped stC4n none).2 (by decide)⟩

/-! ## Claim C5 -/

/-- Claim C5: when `storeSwapInFileClosed` runs with `errflag ≤ 0` on a
client with a pending callback, that callback is invoked exactly once
with the client's buffered bytes (`copy_buf`) and the error flag — the
event log gains exactly one `callbackInvoked` record carrying them — and
`sc.swapin_sio` is cleared to `none` in this close callback. -/
theorem C5_close_success_delivers (st : SwapInState) (errflag : Int)
    (sio : storeIOState) (cb : Nat)
    (hcb : st.sc.callback = some cb) (herr : errflag ≤ 0) :
    storeSwapInFileClosed st errflag sio = Except.ok
      { st with
        sc := { st.sc with callback := none, swapin_sio := none },
        swap_ins := st.swap_ins + 1,
        events := (st.events ++ [Event.cbdataUnlock sio]) ++
          [Event.callbackInvoked cb st.sc.callback_data st.sc.copy_buf
            errflag
            { st.sc with callback := none, swapin_sio := none }] } := by
  obtain ⟨⟨e, cbf, cd, buf, s0⟩, ins, evs⟩ := st
  obtain rfl : cbf = some cb := hcb
  simp [storeSwapInFileClosed, herr]

/-- A client with a pending callback `7` and an in-flight swap-in. -/
def stC5 : SwapInState :=
  { sc := { entry := { mem_status := MemStatus.NOT_IN_MEMORY,
                       swap_status := SwapStatus.SWAPOUT_DONE,
                       flags := 1024, swap_dirn := 1, swap_filen := 2,
                       mem_obj := true },
            callback := some 7, callback_data := 11, copy_buf := 12,
            swapin_sio := some { swap_dirn := 1, swap_filen := 2 } },
    swap_ins := 4, events := [] }

/-- The handle being closed in the C5 witness run. -/
def sioC5 : storeIOState := { swap_dirn := 1, swap_filen := 2 }

/-- Witness for claim C5 at a concrete state with pending callback `7`
and `errflag = 0`. -/
theorem C5_close_success_delivers_witness :
    storeSwapInFileClosed stC5 0 sioC5 = Except.ok
      { stC5 with
        sc := { stC5.sc with callback := none, swapin_sio := none },
        swap_ins := stC5.swap_ins + 1,
        events := (stC5.events ++ [Event.cbdataUnlock sioC5]) ++
          [Event.callbackInvoked 7 stC5.sc.callback_data stC5.sc.copy_buf 0
            { stC5.sc with callback := none, swapin_sio := none }] } :=
  C5_close_success_delivers stC5 0 sioC5 7 rfl (by decide)

/-! ## Claim C6 -/

/-- A client with a pending callback `7`, about to be closed with a
positive error flag. -/
def stC6 : SwapInState :=
  { sc := { entry := { mem_status := MemStatus.NOT_IN_MEMORY,
                       swap_status := SwapStatus.SWAPOUT_DONE,
                       flags := 1024, swap_dirn := 1, swap_filen := 2,
                       mem_obj := true },
            callback := some 7, callback_data := 11, copy_buf := 12,
            swapin_sio := some { swap_dirn := 1, swap_filen := 2 } },
    swap_ins := 4, events := [] }

/-- The handle being closed in the C6 runs. -/
def sioC6 : storeIOState := { swap_dirn := 1, swap_filen := 2 }

/-- Claim C6 (counterexample): closing with the positive error flag `1`
while callback `7` is pending does not deliver the failure to the
callback — it fails the `assert(errflag <= 0)` instead, so a positive
`errflag` is not the code's read-failure delivery convention. -/
theorem C6_counterexample :
    stC6.sc.callback = some 7 ∧ (0 : Int) < 1 ∧
    storeSwapInFileClosed stC6 1 sioC6 =
      Except.error AssertFail.assertFailed :=
  ⟨rfl, by decide, rfl⟩

/-- Claim C6 (amended): a read failure is signalled by a negative
`errflag` (the code's convention, with `0` meaning success): for every
close with `errflag < 0` and a pending callback, the failure is delivered
to that callback as the explicit error code in the same callback that
would have carried success; a positive `errflag` instead fails the
`assert(errflag <= 0)` assertion. -/
theorem C6_read_failure_delivered (st : SwapInState) (errflag : Int)
    (sio : storeIOState) (cb : Nat) (hcb : st.sc.callback = some cb) :
    (errflag < 0 →
      storeSwapInFileClosed st errflag sio = Except.ok
        { st with
          sc := { st.sc with callback := none, swapin_sio := none },
          swap_ins := st.swap_ins + 1,
          events := (st.events ++ [Event.cbdataUnlock sio]) ++
            [Event.callbackInvoked cb st.sc.callback_data st.sc.copy_buf
              errflag
              { st.sc with callback := none, swapin_sio := none }] }) ∧
    (0 < errflag →
      storeSwapInFileClosed st errflag sio =
        Except.error AssertFail.assertFailed) := by
  obtain ⟨⟨e, cbf, cd, buf, s0⟩, ins, evs⟩ := st
  obtain rfl : cbf = some cb := hcb
  constructor
  · intro h
    simp [storeSwapInFileClosed, le_of_lt h]
  · intro h
    simp [storeSwapInFileClosed, not_le.mpr h]

/-- A client with pending callback `9`, for the amended-C6 witness. -/
def stC6w : SwapInState :=
  { stC6 with sc := { stC6.sc with callback := some 9 } }

/-- Witness for the amended claim C6: with `errflag = -1` the failure is
delivered to callback `9`; with `errflag = 1` the assertion fails. -/
theorem C6_read_failure_delivered_witness :
    storeSwapInFileClosed stC6w (-1) sioC6 = Except.ok
      { stC6w with
        sc := { stC6w.sc with callback := none, swapin_sio := none },
        swap_ins := stC6w.swap_ins + 1,
        events := (stC6w.events ++ [Event.cbdataUnlock sioC6]) ++
          [Event.callbackInvoked 9 stC6w.sc.callback_data
            stC6w.sc.copy_buf (-1)
            { stC6w.sc with callback := none, swapin_sio := none }] } ∧
    storeSwapInFileClosed stC6w 1 sioC6 =
      Except.error AssertFail.assertFailed :=
  ⟨(C6_read_failure_delivered stC6w (-1) sioC6 9 rfl).1 (by decide),
   (C6_read_failure_delivered stC6w 1 sioC6 9 rfl).2 (by decide)⟩

/-! ## Claim C7 -/

/-- Claim C7: when `storeSwapInFileClosed` runs on a client whose
`callback` field is `none` (e.g. already cancelled), no client callback is
delivered — whatever the error flag, the close only unlocks the handle,
nulls `sc.swapin_sio`, and bumps the counter; the event log gains exactly
the `cbdataUnlock` record and no `callbackInvoked` record. -/
theorem C7_cancelled_client_suppressed (st : SwapInState) (errflag : Int)
    (sio : storeIOState) (hcb : st.sc.callback = none) :
    storeSwapInFileClosed st errflag sio = Except.ok
      { st with
        sc := { st.sc with swapin_sio := none },
        swap_ins := st.swap_ins + 1,
        events := st.events ++ [Event.cbdataUnlock sio] } := by
  obtain ⟨⟨e, cbf, cd, buf, s0⟩, ins, evs⟩ := st
  obtain rfl : cbf = none := hcb
  simp [storeSwapInFileClosed]

/-- A cancelled client: no pending callback, handle still in flight. -/
def stC7 : SwapInState :=
  { sc := { entry := { mem_status := MemStatus.NOT_IN_MEMORY,
                       swap_status := SwapStatus.SWAPOUT_DONE,
                       flags := 1024, swap_dirn := 1, swap_filen := 2,
                       mem_obj := true },
            callback := none, callback_data := 11, copy_buf := 12,
            swapin_sio := some { swap_dirn := 1, swap_filen := 2 } },
    swap_ins := 4, events := [] }

/-- The handle being closed in the C7 witness run. -/
def sioC7 : storeIOState := { swap_dirn := 1, swap_filen := 2 }

/-- Witness for claim C7: a late completion (here with `errflag = 0`) on
a cancelled client performs only cleanup. -/
theorem C7_cancelled_client_suppressed_witness :
    storeSwapInFileClosed stC7 0 sioC7 = Except.ok
      { stC7 with
        sc := { stC7.sc with swapin_sio := none },
        swap_ins := stC7.swap_ins + 1,
        events := stC7.events ++ [Event.cbdataUnlock sioC7] } :=
  C7_cancelled_client_suppressed stC7 0 sioC7 rfl

/-! ## Claim C8 -/

/-- A client with pending callback `3`, closed with a positive error
flag in the C8 counterexample run. -/
def stC8 : SwapInState :=
  { sc := { entry := { mem_status := MemStatus.NOT_IN_MEMORY,
                       swap_status := SwapStatus.SWAPOUT_DONE,
                       flags := 1024, swap_dirn := 1, swap_filen := 2,
                       mem_obj := true },
            callback := some 3, callback_data := 11, copy_buf := 12,
            swapin_sio := some { swap_dirn := 1, swap_filen := 2 } },
    swap_ins := 4, events := [] }

/-- The handle closed in the C8 runs. -/
def sioC8 : storeIOState := { swap_dirn := 1, swap_filen := 2 }

/-- Claim C8 (counterexample): not every invocation of
`storeSwapInFileClosed` increments the swap-ins counter — with a pending
callback and the positive error flag `2`, the invocation dies on
`assert(errflag <= 0)` and never reaches the increment, so no final state
with the incremented counter exists. -/
theorem C8_counterexample :
    storeSwapInFileClosed stC8 2 sioC8 =
      Except.error AssertFail.assertFailed ∧
    ¬ ∃ st', storeSwapInFileClosed stC8 2 sioC8 = Except.ok st' ∧
        st'.swap_ins = stC8.swap_ins + 1 := by
  refine ⟨rfl, ?_⟩
  rintro ⟨st', h, -⟩
  rw [show storeSwapInFileClosed stC8 2 sioC8 =
        Except.error AssertFail.assertFailed from rfl] at h
  exact Except.noConfusion h

/-- Claim C8 (amended): every invocation of `storeSwapInFileClosed` that
completes (does not die on the `errflag` assertion) increments the global
swap-ins counter by exactly one, regardless of the error flag and of
whether a client callback was delivered. -/
theorem C8_counter_incremented_on_completion (st : SwapInState)
    (errflag : Int) (sio : storeIOState) (st' : SwapInState)
    (h : storeSwapInFileClosed st errflag sio = Except.ok st') :
    st'.swap_ins = st.swap_ins + 1 := by
  obtain ⟨⟨e, cbf, cd, buf, s0⟩, ins, evs⟩ := st
  cases cbf with
  | none =>
      simp [storeSwapInFileClosed] at h
      subst h
      rfl
  | some cb =>
      by_cases herr : errflag ≤ 0
      · simp [storeSwapInFileClosed, herr] at h
        subst h
        rfl
      · simp [storeSwapInFileClosed, herr] at h

/-- A cancelled client used for the amended-C8 witness. -/
def stC8w : SwapInState :=
  { stC8 with sc := { stC8.sc with callback := none } }

/-- The state produced by closing `stC8w` with `errflag = 3`. -/
def stC8r : SwapInState :=
  { stC8w with
    sc := { stC8w.sc with swapin_sio := none },
    swap_ins := stC8w.swap_ins + 1,
    events := stC8w.events ++ [Event.cbdataUnlock sioC8] }

/-- Witness for the amended claim C8: a completing close (here with no
pending callback and `errflag = 3`) bumps the counter from 4 to 5. -/
theorem C8_counter_incremented_on_completion_witness :
    stC8r.swap_ins = stC8w.swap_ins + 1 :=
  C8_counter_incremented_on_completion stC8w 3 sioC8 stC8r rfl

/-! ## Claim C10 -/

/-- Claim C10: in every completing invocation of
`storeSwapInFileClosed`, the events added by the run are either the
handle unlock alone, or the unlock followed by exactly one callback
invocation whose client snapshot — the client state as the callback
observes it — already has `callback = none`: the pending-callback slot is
emptied before the callback runs, so one close can never deliver the
same pending callback twice. -/
theorem C10_callback_cleared_before_invocation (st : SwapInState)
    (errflag : Int) (sio : storeIOState) (st' : SwapInState)
    (h : storeSwapInFileClosed st errflag sio = Except.ok st') :
    ∃ tail, st'.events = st.events ++ tail ∧
      (tail = [Event.cbdataUnlock sio] ∨
       ∃ cb ef snap,
         tail = [Event.cbdataUnlock sio,
                 Event.callbackInvoked cb snap.callback_data snap.copy_buf
                   ef snap] ∧
         snap.callback = none ∧ st'.sc.callback = none) := by
  obtain ⟨⟨e, cbf, cd, buf, s0⟩, ins, evs⟩ := st
  cases cbf with
  | none =>
      simp [storeSwapInFileClosed] at h
      subst h
      exact ⟨[Event.cbdataUnlock sio], by simp, Or.inl rfl⟩
  | some cb =>
      by_cases herr : errflag ≤ 0
      · simp [storeSwapInFileClosed, herr] at h
        subst h
        refine ⟨[Event.cbdataUnlock sio,
          Event.callbackInvoked cb cd buf errflag
            { entry := e, callback := none, callback_data := cd,
              copy_buf := buf, swapin_sio := none }],
          by simp, Or.inr ⟨cb, errflag,
            { entry := e, callback := none, callback_data := cd,
              copy_buf := buf, swapin_sio := none }, rfl, rfl, rfl⟩⟩
      · simp [storeSwapInFileClosed, herr] at h

/-- A client with pending callback `6`, for the C10 witness. -/
def stC10 : SwapInState :=
  { sc := { entry := { mem_status := MemStatus.NOT_IN_MEMORY,
                       swap_status := SwapStatus.SWAPOUT_DONE,
                       flags := 1024, swap_dirn := 1, swap_filen := 2,
                       mem_obj := true },
            callback := some 6, callback_data := 11, copy_buf := 12,
            swapin_sio := some { swap_dirn := 1, swap_filen := 2 } },
    swap_ins := 0, events := [] }

/-- The handle closed in the C10 witness run. -/
def sioC10 : storeIOState := { swap_dirn := 1, swap_filen := 2 }

/-- The state produced by closing `stC10` with `errflag = 0`. -/
def stC10r : SwapInState :=
  { stC10 with
    sc := { stC10.sc with callback := none, swapin_sio := none },
    swap_ins := stC10.swap_ins + 1,
    events := (stC10.events ++ [Event.cbdataUnlock sioC10]) ++
      [Event.callbackInvoked 6 11 12 0
        { stC10.sc with callback := none, swapin_sio := none }] }

/-- Witness for claim C10 at a concrete delivering close. -/
theorem C10_callback_cleared_before_invocation_witness :
    ∃ tail, stC10r.events = stC10.events ++ tail ∧
      (tail = [Event.cbdataUnlock sioC10] ∨
       ∃ cb ef snap,
         tail = [Event.cbdataUnlock sioC10,
                 Event.callbackInvoked cb snap.callback_data snap.copy_buf
                   ef snap] ∧
         snap.callback = none ∧ stC10r.sc.callback = none) :=
  C10_callback_cleared_before_invocation stC10 0 sioC10 stC10r rfl

end Squid.SwapIn
